import Mathlib

/-!
Shallow embedding of the cargo-erlangapp build orchestrator (src/src/lib.rs)
and proofs about its behaviour.

Conventions used throughout:
* Rust `&str`/`String` values are Lean `String`s; argument vectors are `List String`.
* Paths are represented as lists of path segments (`List String`).
* Rust `Result<T, E>` is Lean `Except E T`; Rust `Option` is Lean `Option`.
* Filesystem and subprocess effects are passed in explicitly as values
  describing their outcome, so every function is a pure function of the
  outcomes the real code would observe.
-/

namespace CargoErlangapp

/-! ## Option parser (src/src/lib.rs, `find_option_value`, lines 356-379) -/

/-- Embedding of Rust `str::starts_with`: the first string starts with the
second.  Rust compares byte prefixes of UTF-8 strings, which for valid
strings coincides with character-list prefixes. -/
def starts_with (s pre : String) : Bool :=
  pre.data.isPrefixOf s.data

/-- Embedding of Rust `str::split('=')` as a function on character lists:
splits into the (non-empty) list of groups separated by the character `=`. -/
def split_eq : List Char → List (List Char)
  | [] => [[]]
  | c :: cs =>
    if c = '=' then [] :: split_eq cs
    else
      match split_eq cs with
      | [] => [[c]]
      | g :: gs => (c :: g) :: gs

/-- Embedding of Rust `s.split('=').nth(1)`: the second group of the split,
if any, as a string. -/
def split_nth1 (s : String) : Option String :=
  ((split_eq s.data).get? 1).map String.mk

/-- Embedding of `find_option_value` (lines 356-379): search `args` for
`key=value`, `key= value`, `key =value` or `key = value` and return the
value of the first occurrence found, scanning left to right.  The Rust
loop advances a single iterator; consuming an extra element inside the
bare-`key` branch before dropping through corresponds to the recursive
call on `rest2` below. -/
def find_option_value (args : List String) (key : String) : Option String :=
  match args with
  | [] => none
  | arg0 :: rest =>
    if starts_with arg0 key then
      match split_nth1 arg0 with
      | some v => if v = "" then rest.head? else some v
      | none =>
        if arg0 = key then
          match rest with
          | [] => none
          | arg1 :: rest2 =>
            if arg1 = "=" then rest2.head?
            else if starts_with arg1 ("=") then split_nth1 arg1
            else find_option_value rest2 key
        else find_option_value rest key
    else find_option_value rest key

/-- Embedding of `find_option` (lines 352-354): does `key` occur verbatim
in `args`? -/
def find_option (args : List String) (key : String) : Bool :=
  args.any (fun x => x = key)

/-! ## Command-line invocation (src/src/lib.rs, `ArgsInfo`, lines 311-350) -/

/-- Embedding of the `CargoCommand` enum (line 312). -/
inductive CargoCommand
  | Build
  | Test
  | Clean
deriving DecidableEq

/-- Embedding of the `BuildType` enum (line 314). -/
inductive BuildType
  | Release
  | Debug
  | DefaultDebug
deriving DecidableEq

/-- Embedding of the `ArgsInfo` struct (lines 316-321). -/
structure ArgsInfo where
  command : CargoCommand
  target : Option String
  build_type : BuildType
  cargo_args : List String
deriving DecidableEq

/-- Embedding of `parse_cmd_name` (lines 343-350). -/
def parse_cmd_name (arg : String) : Option CargoCommand :=
  if arg = "build" then some CargoCommand.Build
  else if arg = "test" then some CargoCommand.Test
  else if arg = "clean" then some CargoCommand.Clean
  else none

/-- Embedding of `ArgsInfo::from_args` (lines 324-340): fewer than two
arguments yields `none`; the build type scans the whole argument vector
for `--release` then `--debug`; the command name is parsed from the
second argument; the target triple is extracted from the tail `args[2..]`,
which is also retained verbatim as the pass-through argument list. -/
def ArgsInfo.from_args (args : List String) : Option ArgsInfo :=
  match args with
  | a0 :: a1 :: rest =>
    let build_type :=
      if find_option (a0 :: a1 :: rest) ("--release") then BuildType.Release
      else if find_option (a0 :: a1 :: rest) ("--debug") then BuildType.Debug
      else BuildType.DefaultDebug
    (parse_cmd_name a1).map (fun cmd =>
      { command := cmd
        target := find_option_value rest ("--target")
        build_type := build_type
        cargo_args := rest })
  | _ => none

/-! ## Build targets and platform naming (src/src/lib.rs, lines 130-216) -/

/-- Embedding of the `Target` enum (lines 181-185). -/
inductive Target
  | Bin (name : String)
  | Dylib (name : String)
deriving DecidableEq

/-- Host platforms distinguished by the `cfg` attributes of the source: macOS
(`target_os="macos"`), Windows (`windows`), and all other unixes
(`all(unix, not(target_os="macos"))`). -/
inductive Platform
  | macos
  | windows
  | unix_other
deriving DecidableEq

/-- Embedding of the three `cfg`-selected `target_filenames` functions
(lines 147-177), with the platform made an explicit parameter: the
(destination filename, toolchain-produced filename) pair for a target. -/
def target_filenames (p : Platform) (target : Target) : String × String :=
  match p, target with
  | Platform.macos, Target.Bin s => (s, s)
  | Platform.macos, Target.Dylib s =>
    ("lib" ++ s ++ ".so", "lib" ++ s ++ ".dylib")
  | Platform.windows, Target.Bin s => (s ++ ".exe", s ++ ".exe")
  | Platform.windows, Target.Dylib s => (s ++ ".dll", s ++ ".dll")
  | Platform.unix_other, Target.Bin s => (s, s)
  | Platform.unix_other, Target.Dylib s =>
    ("lib" ++ s ++ ".so", "lib" ++ s ++ ".so")

/-- Embedding of the two `cfg`-selected `linker_args` functions
(lines 130-145), with the platform made an explicit parameter: extra
arguments appended for dylib targets on macOS only. -/
def linker_args (p : Platform) (target : Target) : List String :=
  match p, target with
  | Platform.macos, Target.Dylib _ =>
    ["--", "--codegen", "link-args=\x27-flat_namespace -undefined suppress\x27"]
  | _, _ => []

/-- Embedding of the toolchain argument list assembled for one target in
`build_crates` (lines 84-94, local variable `rustc_args`): the
kind-selection arguments, then the pass-through arguments, then the
linker arguments. -/
def rustc_args (p : Platform) (target : Target) (cargo_args : List String) :
    List String :=
  (match target with
   | Target.Bin s => ["--bin", s]
   | Target.Dylib _ => ["--lib"]) ++ cargo_args ++ linker_args p target

/-- Embedding of the argument vector actually handed to the `cargo`
subprocess by the call `cargo_command("rustc", argsinfo.cargo_args, ...)`
at line 97, given how `cargo_command` builds the command at lines 275-280: the
subcommand followed by the arguments it was given.  The assembled
`rustc_args` value is not used at the call site, so the per-target
argument is unused here. -/
def build_invocation_args (_target : Target) (cargo_args : List String) :
    List String :=
  "rustc" :: cargo_args

/-- Embedding of the build-profile path component chosen in `build_crates`
(lines 107-110): `release` for `BuildType::Release`, `debug` otherwise. -/
def profile_dir (bt : BuildType) : String :=
  match bt with
  | BuildType.Release => "release"
  | _ => "debug"

/-! ## Manifest JSON (src/src/lib.rs, lines 196-238) -/

/-- Embedding of `serde_json::Value`: a JSON document.  Objects are
association lists (the serde map has unique keys; lookup takes the first
binding). -/
inductive Json
  | null
  | bool (b : Bool)
  | num (n : Int)
  | str (s : String)
  | arr (elems : List Json)
  | obj (fields : List (String × Json))

/-- Lookup of a key in an association list of JSON object fields. -/
def assoc_find (key : String) : List (String × Json) → Option Json
  | [] => none
  | (k, v) :: rest => if k = key then some v else assoc_find key rest

/-- Embedding of `serde_json::Value::find`: member lookup on an object,
`none` on every other kind of value. -/
def Json.find (j : Json) (key : String) : Option Json :=
  match j with
  | Json.obj fields => assoc_find key fields
  | _ => none

/-- Embedding of `serde_json::Value::as_string`. -/
def Json.as_string (j : Json) : Option String :=
  match j with
  | Json.str s => some s
  | _ => none

/-- Embedding of `serde_json::Value::as_array`. -/
def Json.as_array (j : Json) : Option (List Json) :=
  match j with
  | Json.arr elems => some elems
  | _ => none

/-- Embedding of `Target::from_json` (lines 198-215): require a string
`name` member and a `kind` array member (keeping only its string
elements); produce a `Bin` if the kinds contain `bin`, else a `Dylib` if
they contain `dylib`, else nothing.  The `otry!` early returns of the
Rust become the `none` match arms. -/
def Target.from_json (obj : Json) : Option Target :=
  match (obj.find ("name")).bind Json.as_string with
  | none => none
  | some name =>
    match ((obj.find ("kind")).bind Json.as_array).map
        (fun arr => arr.filterMap Json.as_string) with
    | none => none
    | some kinds =>
      if kinds.contains ("bin") then some (Target.Bin name)
      else if kinds.contains ("dylib") then some (Target.Dylib name)
      else none

/-- Embedding of the simple text error type `MsgError` (lines 20-38). -/
structure MsgError where
  msg : String
deriving DecidableEq

/-- Embedding of `enumerate_targets_opt` (lines 229-238).  The Rust
function receives the stdout bytes of the subprocess and first runs
`json::from_slice` on them; the byte slice is represented here by its
parse result (`none` for a parse failure, `some j` for a document `j`).
The rest is the chain from the source: find `targets`, require an array, keep
the entries `Target::from_json` accepts. -/
def enumerate_targets_opt (parsed : Option Json) : Option (List Target) :=
  parsed.bind (fun value =>
    ((value.find ("targets")).bind Json.as_array).map
      (fun targets => targets.filterMap Target.from_json))

/-- Outcome of the `cargo read-manifest` subprocess started by
`enumerate_targets` (lines 220-223): either the launch failed
(`process::Command::output` returned `Err`), or it produced stdout whose
JSON parse result is carried as in `enumerate_targets_opt`. -/
inductive ManifestQueryResult
  | launch_failure
  | output (parsed : Option Json)

/-- Embedding of `enumerate_targets` (lines 219-227): a launch failure
becomes the error `Cannot read crate manifest`; otherwise a `none` from
`enumerate_targets_opt` becomes the error `Cannot parse crate manifest`. -/
def enumerate_targets (r : ManifestQueryResult) : Except MsgError (List Target) :=
  match r with
  | ManifestQueryResult.launch_failure =>
    Except.error ⟨"Cannot read crate manifest"⟩
  | ManifestQueryResult.output parsed =>
    match enumerate_targets_opt parsed with
    | none => Except.error ⟨"Cannot parse crate manifest"⟩
    | some targets => Except.ok targets

/-! ## Filesystem model, crate discovery and clean
(src/src/lib.rs, lines 251-309) -/

/-- Result of an `fs::metadata` call: which kind of filesystem object the
path names. -/
structure FsMeta where
  is_file : Bool
  is_dir : Bool
deriving DecidableEq

/-- A directory entry as produced by `read_dir`: its full path, as path
segments. -/
structure DirEntry where
  path : List String
deriving DecidableEq

/-- Embedding of Rust `Result::ok`, used by
`.filter_map(result::Result::ok)`. -/
def result_ok {ε α : Type} : Except ε α → Option α
  | Except.ok a => some a
  | Except.error _ => none

/-- Embedding of `is_crate` (lines 302-309) over a metadata oracle
`meta` (the outcome `fs::metadata` would report for each path, `none`
for an `Err`): the path of the entry joined with `Cargo.toml` must name a
regular file; any metadata error counts as `false`. -/
def is_crate (meta : List String → Option FsMeta) (dirent : DirEntry) : Bool :=
  match meta (dirent.path ++ ["Cargo.toml"]) with
  | some m => m.is_file
  | none => false

/-- Embedding of `enumerate_crate_dirs` (lines 291-300) over the outcome
of `read_dir` on `<appdir>/crates` (an error, or a list of per-entry
results) and a metadata oracle.  `Result::into_iter().flat_map(|x|x)`
turns an `Err` from `read_dir` into an empty iterator; `Ok` entries are
unwrapped, errors discarded; non-crate entries are filtered out; the
paths of the survivors are returned. -/
def enumerate_crate_dirs
    (read_dir : Except String (List (Except String DirEntry)))
    (meta : List String → Option FsMeta) : List (List String) :=
  match read_dir with
  | Except.error _ => []
  | Except.ok entries =>
    ((entries.filterMap result_ok).filter (is_crate meta)).map DirEntry.path

/-- Embedding of `remove_dir_all_force` (lines 263-273) over the outcomes
of the two filesystem calls it makes: `metadata` on the path, and
`remove_dir_all` on the path (the stray source identifiers `s`, `p`
and `m.dir()` are read as `path`, `path` and `m.is_dir()`, the only
well-formed reading).  The metadata result is fed through `and_then`:
a metadata error propagates, a directory is removed, anything else is
`Ok(())`. -/
def remove_dir_all_force (metadata : Except String FsMeta)
    (remove_dir_all : Except String Unit) : Except String Unit :=
  metadata.bind (fun m => if m.is_dir then remove_dir_all else Except.ok ())

/-- Embedding of the final step of `clean_crates` (lines 258-260):
`remove_dir_all_force` on `<appdir>/priv/crates` with every error mapped
to the deletion error message. -/
def clean_output_dir (metadata : Except String FsMeta)
    (remove_dir_all : Except String Unit) : Except MsgError Unit :=
  (remove_dir_all_force metadata remove_dir_all).mapError
    (fun _ => ⟨"can\x27t delete output dir"⟩)

/-- Short-circuiting sequencing of the per-crate `cargo clean`
invocations in `clean_crates` (lines 253-256): the loop body is
`try!(cargo_command(...))`, so the first error aborts. -/
def run_all : List (Except MsgError Unit) → Except MsgError Unit
  | [] => Except.ok ()
  | r :: rs => r.bind (fun _ => run_all rs)

/-- Embedding of `clean_crates` (lines 251-261) over the outcomes of the
per-crate `cargo clean` subprocesses and of the two filesystem calls on
the output tree: clean every crate (short-circuiting), then remove
`priv/crates`. -/
def clean_crates (crate_cleans : List (Except MsgError Unit))
    (metadata : Except String FsMeta) (remove_dir_all : Except String Unit) :
    Except MsgError Unit :=
  (run_all crate_cleans).bind (fun _ => clean_output_dir metadata remove_dir_all)

/-! ## Helper lemmas about the option parser -/

theorem isPrefixOf_append_self (l m : List Char) : l.isPrefixOf (l ++ m) = true := by
  induction l with
  | nil => simp
  | cons c cs ih => simp [List.isPrefixOf_cons₂, ih]

theorem starts_with_of_append (s key : String) (l : List Char)
    (h : s.data = key.data ++ l) : starts_with s key = true := by
  simp [starts_with, h, isPrefixOf_append_self]

theorem starts_with_self (s : String) : starts_with s s = true :=
  starts_with_of_append s s [] (List.append_nil s.data).symm

theorem split_eq_of_not_mem (l : List Char) (h : '=' ∉ l) : split_eq l = [l] := by
  induction l with
  | nil => rfl
  | cons c cs ih =>
    rw [List.mem_cons, not_or] at h
    simp only [split_eq]
    rw [if_neg (fun hc => h.1 hc.symm), ih h.2]

theorem split_eq_append (k rest : List Char) (h : '=' ∉ k) :
    split_eq (k ++ '=' :: rest) = k :: split_eq rest := by
  induction k with
  | nil => simp [split_eq]
  | cons c cs ih =>
    rw [List.mem_cons, not_or] at h
    simp only [List.cons_append, split_eq, List.append_eq]
    rw [if_neg (fun hc => h.1 hc.symm), ih h.2]

theorem string_data_nil (v : String) (h : v.data = []) : v = ("") := by
  cases v
  simp_all

theorem split_nth1_keyval (key val : String) (hk : '=' ∉ key.data) (hv : '=' ∉ val.data) :
    split_nth1 (key ++ ("=") ++ val) = some val := by
  have hdata : (key ++ ("=") ++ val).data = key.data ++ '=' :: val.data := by
    show (key.data ++ ['=']) ++ val.data = _
    simp
  simp only [split_nth1, hdata, split_eq_append key.data val.data hk,
    split_eq_of_not_mem val.data hv]
  rfl

theorem split_nth1_none_of_no_eq (key : String) (hk : '=' ∉ key.data) :
    split_nth1 key = none := by
  simp only [split_nth1, split_eq_of_not_mem key.data hk]
  rfl

theorem split_nth1_trailing (key : String) (hk : '=' ∉ key.data) :
    split_nth1 (key ++ ("=")) = some ("") := by
  have hdata : (key ++ ("=")).data = key.data ++ '=' :: [] := by
    show key.data ++ ['='] = _
    rfl
  simp only [split_nth1, hdata, split_eq_append key.data [] hk]
  rfl

theorem split_nth1_leading (val : String) (hv : '=' ∉ val.data) :
    split_nth1 (("=") ++ val) = some val := by
  have hdata : ((("=")) ++ val).data = '=' :: val.data := rfl
  simp only [split_nth1, hdata, split_eq, if_pos rfl]
  rw [show List.append ([] : List Char) val.data = val.data from rfl,
    split_eq_of_not_mem val.data hv]
  rfl

theorem fov_cons (arg0 : String) (rest : List String) (key : String) :
    find_option_value (arg0 :: rest) key =
      (if starts_with arg0 key then
        match split_nth1 arg0 with
        | some v => if v = ("") then rest.head? else some v
        | none =>
          if arg0 = key then
            match rest with
            | [] => none
            | arg1 :: rest2 =>
              if arg1 = ("=") then rest2.head?
              else if starts_with arg1 ("=") then split_nth1 arg1
              else find_option_value rest2 key
          else find_option_value rest key
      else find_option_value rest key) := by
  cases rest with
  | nil => simp only [find_option_value]
  | cons a t => simp only [find_option_value]

theorem fov_skip (arg0 : String) (rest : List String) (key : String)
    (h : starts_with arg0 key = false) :
    find_option_value (arg0 :: rest) key = find_option_value rest key := by
  rw [fov_cons, h]
  simp

theorem fov_append (pre l : List String) (key : String)
    (hpre : ∀ a ∈ pre, starts_with a key = false) :
    find_option_value (pre ++ l) key = find_option_value l key := by
  induction pre with
  | nil => rfl
  | cons a pre' ih =>
    rw [List.cons_append, fov_skip a _ key (hpre a (by simp)),
      ih (fun b hb => hpre b (by simp [hb]))]

theorem fov_form1 (key val : String) (post : List String)
    (hk : '=' ∉ key.data) (hv : '=' ∉ val.data) (hvne : val ≠ ("")) :
    find_option_value ((key ++ ("=") ++ val) :: post) key = some val := by
  have h1 : starts_with (key ++ ("=") ++ val) key = true :=
    starts_with_of_append (key ++ ("=") ++ val) key ('=' :: val.data)
      (by show (key.data ++ ['=']) ++ val.data = _; simp)
  have h2 := split_nth1_keyval key val hk hv
  rw [fov_cons]
  simp [h1, h2, hvne]

theorem fov_form2 (key val : String) (post : List String)
    (hk : '=' ∉ key.data) :
    find_option_value ((key ++ ("=")) :: val :: post) key = some val := by
  have h1 : starts_with (key ++ ("=")) key = true :=
    starts_with_of_append (key ++ ("=")) key ['=']
      (by show key.data ++ ['='] = _; rfl)
  have h2 := split_nth1_trailing key hk
  rw [fov_cons]
  simp [h1, h2]

theorem fov_form3 (key val : String) (post : List String)
    (hk : '=' ∉ key.data) (hv : '=' ∉ val.data) (hvne : val ≠ ("")) :
    find_option_value (key :: (("=") ++ val) :: post) key = some val := by
  have h3 : (("=")) ++ val ≠ ("=") := by
    intro hEq
    apply hvne
    apply string_data_nil
    have hd : ((("=")) ++ val).data = (("=") : String).data := by rw [hEq]
    simpa using hd
  have h4 : starts_with ((("=")) ++ val) ("=") = true :=
    starts_with_of_append ((("=")) ++ val) ("=") val.data rfl
  have h5 := split_nth1_leading val hv
  rw [fov_cons]
  simp [starts_with_self key, split_nth1_none_of_no_eq key hk, h3, h4, h5]

theorem fov_form4 (key val : String) (post : List String)
    (hk : '=' ∉ key.data) :
    find_option_value (key :: ("=") :: val :: post) key = some val := by
  rw [fov_cons]
  simp [starts_with_self key, split_nth1_none_of_no_eq key hk]

theorem fov_malformed (key junk : String) (tail : List String)
    (hk : '=' ∉ key.data) (hj1 : junk ≠ ("=")) (hj2 : starts_with junk ("=") = false) :
    find_option_value (key :: junk :: tail) key = find_option_value tail key := by
  rw [fov_cons]
  simp [starts_with_self key, split_nth1_none_of_no_eq key hk, hj1, hj2]

/-! ## Claim theorems -/

theorem find_option_eq_true_iff (args : List String) (key : String) :
    find_option args key = true ↔ key ∈ args := by
  simp [find_option, List.any_eq_true]

/-- Claim C1 (code bug): `build_crates` assembles the toolchain argument
list `--bin <name>`/`--lib` ++ pass-through ++ linker directives in its
local `rustc_args`, but the subprocess invocation at line 97 passes only
`argsinfo.cargo_args`; at the concrete input (an executable target named
`helloexe`, empty pass-through arguments, non-Apple platform) the
assembled list is `["--bin", "helloexe"]` while the subprocess receives
only the subcommand `rustc` with no further arguments, so the assembled
list is not the list passed. -/
theorem build_assembled_args_unused :
    rustc_args Platform.unix_other (Target.Bin ("helloexe")) [] = [("--bin"), ("helloexe")]
  ∧ build_invocation_args (Target.Bin ("helloexe")) [] = [("rustc")]
  ∧ build_invocation_args (Target.Bin ("helloexe")) []
      ≠ ("rustc") :: rustc_args Platform.unix_other (Target.Bin ("helloexe")) [] := by
  refine ⟨rfl, rfl, ?_⟩
  decide

/-- Fixed metadata oracle for which every path is absent. -/
def absent_fs : List String → Option FsMeta := fun _ => none

/-- Claim C2 counterexample: when `read_dir` on `<project>/crates` fails
(directory absent or unreadable), `enumerate_crate_dirs` returns the
empty sub-project list rather than failing: the claimed hard error
(`CannotEnumerate`) does not occur, and an empty list is substituted for
the missing root. -/
theorem missing_crates_root_yields_empty :
    enumerate_crate_dirs (Except.error ("No such file or directory")) absent_fs = [] :=
  rfl

/-- Claim C2 (amended): if the `crates` directory is absent or unreadable
(`read_dir` reports any error), crate discovery silently yields the empty
sub-project list; discovery has no error outcome at all. -/
theorem enumerate_crate_dirs_error_eq_nil (e : String)
    (meta : List String → Option FsMeta) :
    enumerate_crate_dirs (Except.error e) meta = [] :=
  rfl

/-- Manifest entry with the given name and kind strings, as produced by
`cargo read-manifest`. -/
def mk_manifest_entry (name : String) (kinds : List String) : Json :=
  Json.obj [(("name"), Json.str name), (("kind"), Json.arr (kinds.map Json.str))]

/-- Claim C3 counterexample: a manifest target entry whose kind list is
`["cdylib"]` is dropped by `Target::from_json` (no `BuildTarget` is
constructed), although the claim says a kind list containing `cdylib`
yields a SharedLibrary. -/
theorem from_json_cdylib_dropped :
    Target.from_json (mk_manifest_entry ("x") [("cdylib")]) = none :=
  rfl

/-- Claim C3 (amended): for a manifest entry with a string name and a
kind list, a target is constructed iff the kinds contain `bin` (yielding
an executable target, taking precedence) or else contain `dylib`
(yielding a shared-library target); `cdylib` is not recognized, and
entries matching neither kind are silently dropped. -/
theorem from_json_kind_cases (name : String) (kinds : List String) :
    Target.from_json (mk_manifest_entry name kinds) =
      (if kinds.contains ("bin") then some (Target.Bin name)
       else if kinds.contains ("dylib") then some (Target.Dylib name)
       else none) := by
  simp [mk_manifest_entry, Target.from_json, Json.find, assoc_find,
    Json.as_string, Json.as_array, List.filterMap_map]

/-- Claim C4 (code bug): cleaning with the output tree `priv/crates`
already absent fails with the output-dir deletion error instead of
succeeding: `remove_dir_all_force` feeds the `fs::metadata` result
through `and_then`, so the metadata error for an absent path propagates,
contradicting both the claim and the own comment of the function (line 263). -/
theorem clean_absent_output_dir_errors :
    clean_crates [] (Except.error ("No such file or directory")) (Except.ok ())
      = Except.error ⟨"can\x27t delete output dir"⟩ :=
  rfl

/-- Claim C5: the option parser returns the value for each of the four
accepted spellings (`key=value`, `key= value`, `key =value`,
`key = value`), scanning left to right past arguments that do not start
with the key and returning on the first match; a bare-`key` candidate
followed by something that resolves under none of the four forms is
skipped and scanning continues (with the probed argument consumed); an
exhausted argument list yields `none`.  The key and value are assumed
free of `=` and the value non-empty, as for the real `--target=<triple>`
usage. -/
theorem find_option_value_four_forms (key val junk : String)
    (pre post tail : List String)
    (hk : '=' ∉ key.data) (hv : '=' ∉ val.data) (hvne : val ≠ (""))
    (hpre : ∀ a ∈ pre, starts_with a key = false)
    (hj1 : junk ≠ ("=")) (hj2 : starts_with junk ("=") = false) :
    find_option_value (pre ++ (key ++ ("=") ++ val) :: post) key = some val
  ∧ find_option_value (pre ++ (key ++ ("=")) :: val :: post) key = some val
  ∧ find_option_value (pre ++ key :: (("=") ++ val) :: post) key = some val
  ∧ find_option_value (pre ++ key :: ("=") :: val :: post) key = some val
  ∧ find_option_value (key :: junk :: tail) key = find_option_value tail key
  ∧ find_option_value ([] : List String) key = none := by
  refine ⟨?_, ?_, ?_, ?_, ?_, rfl⟩
  · rw [fov_append pre _ key hpre, fov_form1 key val post hk hv hvne]
  · rw [fov_append pre _ key hpre, fov_form2 key val post hk]
  · rw [fov_append pre _ key hpre, fov_form3 key val post hk hv hvne]
  · rw [fov_append pre _ key hpre, fov_form4 key val post hk]
  · rw [fov_malformed key junk tail hk hj1 hj2]

/-- Witness for C5 at a concrete invocation: key `--target`, value `v`,
an unrelated preceding argument, a trailing argument, and a malformed
candidate followed by junk. -/
theorem find_option_value_four_forms_witness :
    find_option_value ([("build")] ++ (("--target") ++ ("=") ++ ("v")) :: [("p")]) ("--target") = some ("v")
  ∧ find_option_value ([("build")] ++ (("--target") ++ ("=")) :: ("v") :: [("p")]) ("--target") = some ("v")
  ∧ find_option_value ([("build")] ++ ("--target") :: ((("=")) ++ ("v")) :: [("p")]) ("--target") = some ("v")
  ∧ find_option_value ([("build")] ++ ("--target") :: ("=") :: ("v") :: [("p")]) ("--target") = some ("v")
  ∧ find_option_value (("--target") :: ("zz") :: [("t")]) ("--target") = find_option_value [("t")] ("--target")
  ∧ find_option_value ([] : List String) ("--target") = none :=
  find_option_value_four_forms ("--target") ("v") ("zz") [("build")] [("p")] [("t")]
    (by decide) (by decide) (by decide) (by decide) (by decide) (by decide)

/-- Claim C6: manifest reading has exactly two failure modes: a
subprocess-launch failure yields the `Cannot read crate manifest` error
(ToolchainUnavailable), and a JSON parse failure or a document lacking a
`targets` array yields the `Cannot parse crate manifest` error
(ManifestUnparsable); a document with no `targets` key errors rather
than producing an empty target list, and every error is one of the two. -/
theorem enumerate_targets_failure_modes :
    enumerate_targets ManifestQueryResult.launch_failure
      = Except.error ⟨"Cannot read crate manifest"⟩
  ∧ enumerate_targets (ManifestQueryResult.output none)
      = Except.error ⟨"Cannot parse crate manifest"⟩
  ∧ (∀ j : Json, (j.find ("targets")).bind Json.as_array = none →
      enumerate_targets (ManifestQueryResult.output (some j))
        = Except.error ⟨"Cannot parse crate manifest"⟩)
  ∧ (∀ (r : ManifestQueryResult) (e : MsgError),
      enumerate_targets r = Except.error e →
      e = ⟨"Cannot read crate manifest"⟩ ∨ e = ⟨"Cannot parse crate manifest"⟩) := by
  refine ⟨rfl, rfl, ?_, ?_⟩
  · intro j hj
    cases hfind : j.find ("targets") with
    | none => simp [enumerate_targets, enumerate_targets_opt, hfind]
    | some a =>
      rw [hfind] at hj
      simp only [Option.some_bind] at hj
      simp [enumerate_targets, enumerate_targets_opt, hfind, hj]
  · intro r e h
    cases r with
    | launch_failure =>
      left
      simp [enumerate_targets] at h
      exact h.symm
    | output parsed =>
      right
      cases hopt : enumerate_targets_opt parsed with
      | none =>
        simp [enumerate_targets, hopt] at h
        exact h.symm
      | some targets =>
        simp [enumerate_targets, hopt] at h

/-- Witness for C6: a JSON object with no `targets` key errors with
`Cannot parse crate manifest`, and that error is one of the two failure
modes. -/
theorem enumerate_targets_failure_modes_witness :
    enumerate_targets (ManifestQueryResult.output (some (Json.obj [])))
      = Except.error ⟨"Cannot parse crate manifest"⟩
  ∧ ((⟨"Cannot parse crate manifest"⟩ : MsgError) = ⟨"Cannot read crate manifest"⟩
      ∨ (⟨"Cannot parse crate manifest"⟩ : MsgError) = ⟨"Cannot parse crate manifest"⟩) :=
  ⟨enumerate_targets_failure_modes.2.2.1 (Json.obj []) rfl,
   enumerate_targets_failure_modes.2.2.2
     (ManifestQueryResult.output (some (Json.obj []))) _
     (enumerate_targets_failure_modes.2.2.1 (Json.obj []) rfl)⟩

/-- Claim C7: the (destination filename, source filename) pair follows
the three-platform table: bare names for executables on the POSIX-like
platforms, `.exe` appended on Windows; shared libraries are
`lib<name>.so`/`lib<name>.so` on standard POSIX,
`lib<name>.so`/`lib<name>.dylib` on Apple, and `<name>.dll` for both on
Windows. -/
theorem target_filenames_table (s : String) :
    target_filenames Platform.unix_other (Target.Bin s) = (s, s)
  ∧ target_filenames Platform.unix_other (Target.Dylib s)
      = (("lib") ++ s ++ (".so"), ("lib") ++ s ++ (".so"))
  ∧ target_filenames Platform.macos (Target.Bin s) = (s, s)
  ∧ target_filenames Platform.macos (Target.Dylib s)
      = (("lib") ++ s ++ (".so"), ("lib") ++ s ++ (".dylib"))
  ∧ target_filenames Platform.windows (Target.Bin s)
      = (s ++ (".exe"), s ++ (".exe"))
  ∧ target_filenames Platform.windows (Target.Dylib s)
      = (s ++ (".dll"), s ++ (".dll")) :=
  ⟨rfl, rfl, rfl, rfl, rfl, rfl⟩

/-- Claim C8: for any successfully parsed invocation, the build looks for
artifacts under the `release` toolchain output subdirectory iff
`--release` appears among the arguments, and under `debug` otherwise
(also when `--debug` appears alongside `--release`, and when neither
appears). -/
theorem build_profile_dir_selection (args : List String) (ai : ArgsInfo)
    (h : ArgsInfo.from_args args = some ai) :
    profile_dir ai.build_type =
      (if ("--release") ∈ args then ("release") else ("debug")) := by
  match args with
  | [] => exact absurd h (by simp [ArgsInfo.from_args])
  | [a0] => exact absurd h (by simp [ArgsInfo.from_args])
  | a0 :: a1 :: rest =>
    simp only [ArgsInfo.from_args, Option.map_eq_some'] at h
    obtain ⟨cmd, hcmd, hai⟩ := h
    subst hai
    by_cases hr : ("--release") ∈ (a0 :: a1 :: rest)
    · rw [if_pos hr]
      have hfo : find_option (a0 :: a1 :: rest) ("--release") = true :=
        (find_option_eq_true_iff _ _).mpr hr
      simp [hfo, profile_dir]
    · rw [if_neg hr]
      have hfo : find_option (a0 :: a1 :: rest) ("--release") = false := by
        rw [Bool.eq_false_iff]
        rw [Ne, find_option_eq_true_iff]
        exact hr
      simp only [hfo]
      cases find_option (a0 :: a1 :: rest) ("--debug") <;> simp [profile_dir]

/-- Witness for C8: `--release` and `--debug` both present selects the
`release` subdirectory. -/
theorem build_profile_dir_selection_witness :
    profile_dir (ArgsInfo.mk CargoCommand.Build none BuildType.Release
        [("--release"), ("--debug")]).build_type
      = (if ("--release") ∈ [("cargo-erlangapp"), ("build"), ("--release"), ("--debug")]
         then ("release") else ("debug")) :=
  build_profile_dir_selection
    [("cargo-erlangapp"), ("build"), ("--release"), ("--debug")]
    (ArgsInfo.mk CargoCommand.Build none BuildType.Release [("--release"), ("--debug")])
    (by decide)

/-- Claim C9: any argument that merely starts with the key is accepted as
a `key=value` candidate: searching for `--target` in an argument list
containing only the distinct longer flag `--target-dir=x` returns `x`. -/
theorem find_option_value_longer_flag :
    find_option_value [("--target-dir=x")] ("--target") = some ("x") := by
  decide

/-- Claim C10: a well-formed occurrence of the key immediately after a
bare-key occurrence is missed: scanning `["key", "key=value"]` for `key`
returns `none`, because the bare `key` consumes the following argument
while probing for the `= value` forms. -/
theorem find_option_value_bare_key_skips_match :
    find_option_value [("key"), ("key=value")] ("key") = none := by
  decide

end CargoErlangapp
